import Mathlib

/-
Verification development for the financial valuation system
(backend/src/financial_analyzer.py, backend/src/financial_analyzer_dataclass.py,
backend/src/advanced_ranking.py, backend/src/sample_data.py).

Modelling conventions:
* Python floats are modelled as exact rationals.  The code uses np.nan as its
  "undefined" sentinel and always tests with np.isnan before using a value, so
  a possibly-NaN float is modelled as an Option rational (none = NaN); a float
  that is never NaN on the modelled paths is a plain rational.
* pandas sort_values with ascending=False is modelled as a STABLE
  descending sort: pandas nargsort reverses the values before the
  ascending argsort and reverses the resulting indexer after, so a
  descending sort keeps tied rows in their original (insertion) order;
  numpy's underlying sort is a stable insertion sort for the short
  arrays our concrete inputs use.
* Python list.sort(key=..., reverse=True) is stable descending and is
  modelled by a stable insertion sort with a greater-or-equal relation.
* Python round(x, 4) (round half to even on the scaled value) is modelled
  exactly by roundHalfEven below.
* A Dict of companies keyed by ticker is modelled as a list of records in
  insertion order; dict semantics make tickers distinct, which appears as a
  Nodup hypothesis where it matters.
-/

/-- CompanyFinancialData from backend/src/financial_analyzer_dataclass.py,
the canonical dataclass used by sample_data.py and advanced_ranking.py.
All plain-float fields are exact rationals; property_plant_equipment is
Optional[float] = None and sector Optional[str] = None as in the source. -/
structure CompanyFinancialData where
  ticker : String
  company_name : String
  market_cap : ℚ
  stock_price : ℚ
  shares_outstanding : ℚ
  revenue : ℚ
  ebit : ℚ
  net_income : ℚ
  depreciation_amortization : ℚ
  capex : ℚ
  total_assets : ℚ
  total_debt : ℚ
  equity : ℚ
  current_assets : ℚ
  current_liabilities : ℚ
  cash : ℚ
  accounts_receivable : ℚ
  inventory : ℚ
  accounts_payable : ℚ
  property_plant_equipment : Option ℚ := none
  sector : Option String := none
deriving Repr, DecidableEq

/-- The constants held by FinancialMetricsCalculator (financial_analyzer.py,
__init__): tax_rate = 0.34, market_risk_premium = 0.06, and the injected
risk-free rate. -/
structure FinancialMetricsCalculator where
  tax_rate : ℚ
  risk_free_rate : ℚ
  market_risk_premium : ℚ
deriving Repr, DecidableEq

/-- FinancialMetricsCalculator.__init__(selic_rate): risk_free_rate is
selic_rate / 100 when selic_rate is given and truthy (Python: nonzero),
else the 0.10 default. -/
def mkCalculator (selic_rate : Option ℚ) : FinancialMetricsCalculator :=
  { tax_rate := 34/100
    risk_free_rate :=
      match selic_rate with
      | some s => if s ≠ 0 then s / 100 else 1/10
      | none => 1/10
    market_risk_premium := 6/100 }

namespace FinancialMetricsCalculator

/-- Source _calculate_nopat: ebit * (1 - tax_rate). -/
def _calculate_nopat (c : FinancialMetricsCalculator) (ebit : ℚ) : ℚ :=
  ebit * (1 - c.tax_rate)

/-- Source _calculate_ncg: accounts_receivable + inventory - accounts_payable. -/
def _calculate_ncg (c : FinancialMetricsCalculator) (d : CompanyFinancialData) : ℚ :=
  d.accounts_receivable + d.inventory - d.accounts_payable

/-- Source _calculate_capital_employed: property_plant_equipment (0 when None)
plus the working-capital need. -/
def _calculate_capital_employed (c : FinancialMetricsCalculator)
    (d : CompanyFinancialData) : ℚ :=
  (d.property_plant_equipment.getD 0) + c._calculate_ncg d

/-- Source _calculate_cost_of_equity_ke: CAPM, risk_free_rate + beta * market_risk_premium. -/
def _calculate_cost_of_equity_ke (c : FinancialMetricsCalculator) (beta : ℚ) : ℚ :=
  c.risk_free_rate + beta * c.market_risk_premium

/-- Source _calculate_cost_of_debt_kd: risk_free_rate * 1.2 when total_debt > 0,
else the flat 0.05 default. -/
def _calculate_cost_of_debt_kd (c : FinancialMetricsCalculator)
    (d : CompanyFinancialData) : ℚ :=
  if 0 < d.total_debt then c.risk_free_rate * (12/10) else 5/100

/-- Source _calculate_wacc: returns NaN (none) when equity + total_debt <= 0, else
ke * %ke + kd * (1 - tax_rate) * %kd with capital-structure shares. -/
def _calculate_wacc (c : FinancialMetricsCalculator) (d : CompanyFinancialData)
    (beta : ℚ) : Option ℚ :=
  let total_capital := d.equity + d.total_debt
  if total_capital ≤ 0 then none
  else
    let ke := c._calculate_cost_of_equity_ke beta
    let kd := c._calculate_cost_of_debt_kd d
    let percent_ke := d.equity / total_capital
    let percent_kd := d.total_debt / total_capital
    some (ke * percent_ke + kd * (1 - c.tax_rate) * percent_kd)

/-- Source _calculate_roce: NaN (none) when capital_employed == 0, else
nopat / capital_employed. -/
def _calculate_roce (c : FinancialMetricsCalculator) (d : CompanyFinancialData)
    (capital_employed : ℚ) : Option ℚ :=
  if capital_employed = 0 then none
  else some (c._calculate_nopat d.ebit / capital_employed)

/-- calculate_eva: (nan, nan) when capital_employed <= 0 or when wacc or roce
is NaN; else (capital_employed * (roce - wacc), (roce - wacc) * 100). -/
def calculate_eva (c : FinancialMetricsCalculator) (d : CompanyFinancialData)
    (beta : ℚ) : Option ℚ × Option ℚ :=
  let capital_employed := c._calculate_capital_employed d
  if capital_employed ≤ 0 then (none, none)
  else
    match c._calculate_wacc d beta, c._calculate_roce d capital_employed with
    | some wacc, some roce =>
        (some (capital_employed * (roce - wacc)), some ((roce - wacc) * 100))
    | _, _ => (none, none)

/-- calculate_riqueza_atual: eva_abs / wacc, NaN (none) when eva_abs or wacc
is NaN or wacc == 0. -/
def calculate_riqueza_atual (c : FinancialMetricsCalculator)
    (d : CompanyFinancialData) (beta : ℚ) : Option ℚ :=
  match (c.calculate_eva d beta).1, c._calculate_wacc d beta with
  | some eva_abs, some wacc => if wacc = 0 then none else some (eva_abs / wacc)
  | _, _ => none

/-- calculate_riqueza_futura: (market_cap + total_debt) - capital_employed.
The source only returns NaN when an input is NaN, which cannot happen for
the plain-rational record fields, so the result is a total rational. -/
def calculate_riqueza_futura (c : FinancialMetricsCalculator)
    (d : CompanyFinancialData) : ℚ :=
  d.market_cap + d.total_debt - c._calculate_capital_employed d

/-- calculate_efv: (nan, nan) when riqueza_atual is NaN or when
capital_employed <= 0; else (efv_abs, efv_abs / capital_employed * 100)
with efv_abs = riqueza_futura - riqueza_atual. -/
def calculate_efv (c : FinancialMetricsCalculator) (d : CompanyFinancialData)
    (beta : ℚ) : Option ℚ × Option ℚ :=
  match c.calculate_riqueza_atual d beta with
  | none => (none, none)
  | some riqueza_atual_abs =>
      let efv_abs := c.calculate_riqueza_futura d - riqueza_atual_abs
      let capital_employed := c._calculate_capital_employed d
      if capital_employed ≤ 0 then (none, none)
      else (some efv_abs, some (efv_abs / capital_employed * 100))

/-- calculate_upside: NaN (none) when market_cap <= 0, else
(efv_abs / market_cap) * 100. -/
def calculate_upside (c : FinancialMetricsCalculator) (d : CompanyFinancialData)
    (efv_abs : ℚ) : Option ℚ :=
  if d.market_cap ≤ 0 then none
  else some (efv_abs / d.market_cap * 100)

/-- The guarded upside expression repeated verbatim at every consumer call
site (financial_analyzer.py line 449, advanced_ranking.py lines 66, 110, 250):
calculate_upside(data, efv_abs) if not np.isnan(efv_abs) else np.nan. -/
def upsideGuarded (c : FinancialMetricsCalculator) (d : CompanyFinancialData)
    (beta : ℚ) : Option ℚ :=
  match (c.calculate_efv d beta).1 with
  | some efv_abs => c.calculate_upside d efv_abs
  | none => none

end FinancialMetricsCalculator

/-- Round half to even, the tie-breaking rule of Python round(). -/
def roundHalfEven (y : ℚ) : ℤ :=
  if y - ⌊y⌋ < 1/2 then ⌊y⌋
  else if 1/2 < y - ⌊y⌋ then ⌊y⌋ + 1
  else if ⌊y⌋ % 2 = 0 then ⌊y⌋ else ⌊y⌋ + 1

/-- Python round(x, 4): round half to even at the fourth decimal place. -/
def round4 (x : ℚ) : ℚ :=
  ((roundHalfEven (x * 10000) : ℤ) : ℚ) / 10000

theorem abs_sub_roundHalfEven (y : ℚ) : |y - (roundHalfEven y : ℚ)| ≤ 1/2 := by
  have hf : ((⌊y⌋ : ℤ) : ℚ) ≤ y := Int.floor_le y
  have hf2 : y < ((⌊y⌋ : ℤ) : ℚ) + 1 := Int.lt_floor_add_one y
  unfold roundHalfEven
  split_ifs with h1 h2 h3 <;>
    (rw [abs_le]; push_cast; constructor <;> linarith)

theorem roundHalfEven_nonneg {y : ℚ} (h : 0 ≤ y) : 0 ≤ roundHalfEven y := by
  have hfl : 0 ≤ ⌊y⌋ := Int.le_floor.mpr (by exact_mod_cast h)
  unfold roundHalfEven
  split_ifs <;> omega

theorem round4_nonneg {x : ℚ} (h : 0 ≤ x) : 0 ≤ round4 x := by
  have h1 : 0 ≤ roundHalfEven (x * 10000) :=
    roundHalfEven_nonneg (by positivity)
  unfold round4
  positivity

theorem round4_zero : round4 0 = 0 := by norm_num [round4, roundHalfEven]

theorem abs_round4_sub (x : ℚ) : |round4 x - x| ≤ 1/20000 := by
  have h := abs_sub_roundHalfEven (x * 10000)
  rw [abs_sub_comm] at h
  have key : round4 x - x = (((roundHalfEven (x * 10000) : ℤ) : ℚ) - x * 10000) / 10000 := by
    unfold round4; ring
  rw [key, abs_div]
  have h10 : |(10000 : ℚ)| = 10000 := by norm_num
  rw [h10]
  linarith

/-- The per-company dict built by CompanyRanking._calculate_all_metrics
(financial_analyzer.py).  Fields that can hold np.nan are Options. -/
structure MetricsRow where
  ticker : String
  company_name : String
  market_cap : ℚ
  stock_price : ℚ
  wacc_percentual : Option ℚ
  eva_abs : Option ℚ
  eva_percentual : Option ℚ
  efv_abs : Option ℚ
  efv_percentual : Option ℚ
  riqueza_atual : Option ℚ
  riqueza_futura : Option ℚ
  upside_percentual : Option ℚ
  combined_score : ℚ
deriving Repr, DecidableEq

/-- A report row after the NaN/Inf cleanup loop of generate_ranking_report.
The seven columns in the cleanup list become plain rationals (NaN replaced
by 0); eva_abs and efv_abs are NOT in that list and stay Options. -/
structure ReportRow where
  ticker : String
  company_name : String
  market_cap : ℚ
  stock_price : ℚ
  wacc_percentual : ℚ
  eva_abs : Option ℚ
  eva_percentual : ℚ
  efv_abs : Option ℚ
  efv_percentual : ℚ
  riqueza_atual : ℚ
  riqueza_futura : ℚ
  upside_percentual : ℚ
  combined_score : ℚ
deriving Repr, DecidableEq

namespace CompanyRanking

open FinancialMetricsCalculator

/-- CompanyRanking._calculate_all_metrics with the hardcoded beta = 1.0.
The source first replaces a NaN wacc by 0.0, so the later NaN guard on
wacc_percentual is vacuous; combined_score adds each of eva_pct * 0.4,
efv_pct * 0.4, upside * 0.2 only when the input is not NaN. -/
def _calculate_all_metrics (c : FinancialMetricsCalculator)
    (d : CompanyFinancialData) : MetricsRow :=
  let beta : ℚ := 1
  let wacc := (c._calculate_wacc d beta).getD 0
  let eva := c.calculate_eva d beta
  let efv := c.calculate_efv d beta
  let riqueza_atual := c.calculate_riqueza_atual d beta
  let riqueza_futura := c.calculate_riqueza_futura d
  let upside := c.upsideGuarded d beta
  let score_combinado :=
    (match eva.2 with | some v => v * (4/10) | none => 0)
    + (match efv.2 with | some v => v * (4/10) | none => 0)
    + (match upside with | some v => v * (2/10) | none => 0)
  { ticker := d.ticker
    company_name := d.company_name
    market_cap := d.market_cap
    stock_price := d.stock_price
    wacc_percentual := some (wacc * 100)
    eva_abs := eva.1
    eva_percentual := eva.2
    efv_abs := efv.1
    efv_percentual := efv.2
    riqueza_atual := riqueza_atual
    riqueza_futura := some riqueza_futura
    upside_percentual := upside
    combined_score := score_combinado }

/-- The per-row effect of the cleanup loop in generate_ranking_report:
replace(inf, -inf, nan) then fillna(0) on the seven listed columns only. -/
def cleanRow (m : MetricsRow) : ReportRow :=
  { ticker := m.ticker
    company_name := m.company_name
    market_cap := m.market_cap
    stock_price := m.stock_price
    wacc_percentual := m.wacc_percentual.getD 0
    eva_abs := m.eva_abs
    eva_percentual := m.eva_percentual.getD 0
    efv_abs := m.efv_abs
    efv_percentual := m.efv_percentual.getD 0
    riqueza_atual := m.riqueza_atual.getD 0
    riqueza_futura := m.riqueza_futura.getD 0
    upside_percentual := m.upside_percentual.getD 0
    combined_score := m.combined_score }

/-- CompanyRanking.generate_ranking_report: one row per company in dict
order, then the NaN/Inf cleanup on the seven listed columns.  The
per-company try/except cannot fire in the exact model (the computations
are total), so no row is dropped. -/
def generate_ranking_report (c : FinancialMetricsCalculator)
    (companies : List CompanyFinancialData) : List ReportRow :=
  (companies.map (_calculate_all_metrics c ·)).map cleanRow

/-- CompanyRanking.rank_by_metric: df.sort_values(by=metric, ascending)
then the (ticker, value) pairs.  The metric is modelled as a projection
(the source's column-name membership check is total on projections).
Both directions are stable: pandas nargsort pre-reverses the values and
post-reverses the indexer for descending sorts, so tied rows keep their
input order either way. -/
def rank_by_metric (df : List ReportRow) (metric : ReportRow → ℚ)
    (ascending : Bool) : List (String × ℚ) :=
  let sorted_df :=
    if ascending then List.insertionSort (fun a b => metric a ≤ metric b) df
    else List.insertionSort (fun a b => metric b ≤ metric a) df
  sorted_df.map (fun r => (r.ticker, metric r))

/-- CompanyRanking.rank_by_combined_score: sort_values(by=combined_score,
ascending=False) then the (ticker, combined_score) pairs; a stable
descending sort, ties keep input order. -/
def rank_by_combined_score (df : List ReportRow) : List (String × ℚ) :=
  let sorted_df :=
    List.insertionSort (fun a b : ReportRow => b.combined_score ≤ a.combined_score) df
  sorted_df.map (fun r => (r.ticker, r.combined_score))

end CompanyRanking

/-- RankingCriteria from backend/src/advanced_ranking.py, with its default
weights. -/
structure RankingCriteria where
  eva_weight : ℚ := 3/10
  efv_weight : ℚ := 3/10
  upside_weight : ℚ := 2/10
  profitability_weight : ℚ := 1/10
  liquidity_weight : ℚ := 1/10
deriving Repr, DecidableEq

/-- RankingCriteria.normalize_weights: divide the five weights by their sum
when that sum is positive, else leave them unchanged (the source logs a
warning and mutates nothing). -/
def RankingCriteria.normalize_weights (cr : RankingCriteria) : RankingCriteria :=
  let total := cr.eva_weight + cr.efv_weight + cr.upside_weight +
    cr.profitability_weight + cr.liquidity_weight
  if 0 < total then
    { eva_weight := cr.eva_weight / total
      efv_weight := cr.efv_weight / total
      upside_weight := cr.upside_weight / total
      profitability_weight := cr.profitability_weight / total
      liquidity_weight := cr.liquidity_weight / total }
  else cr

/-- sklearn MinMaxScaler().fit_transform on a single sample of a single
feature, as called by custom_rank_companies: the fitted data range is the
one value itself, its width is zero, and sklearn replaces a zero width by 1
(_handle_zeros_in_scale), giving (x - x) / 1 = 0 for every x. -/
def minMaxFitTransformSingle (x : ℚ) : ℚ :=
  let data_min := x
  let data_max := x
  (x - data_min) / (if data_max - data_min = 0 then 1 else data_max - data_min)

theorem minMaxFitTransformSingle_eq_zero (x : ℚ) : minMaxFitTransformSingle x = 0 := by
  simp [minMaxFitTransformSingle]

/-- One entry of the list built by AdvancedRanking.custom_rank_companies. -/
structure ScoredCompany where
  ticker : String
  company_name : String
  eva_pct : Option ℚ
  efv_pct : Option ℚ
  upside_pct : Option ℚ
  profitability_score : ℚ
  liquidity_score : ℚ
  final_score : ℚ
deriving Repr, DecidableEq

namespace AdvancedRanking

open FinancialMetricsCalculator

/-- The per-company body of AdvancedRanking.custom_rank_companies with the
hardcoded beta = 1.0: each of the five metrics is min-max scaled against a
batch of one (its own single value), NaN metrics contribute the literal 0,
and the final score is the weighted sum of the scaled values. -/
def customRankEntry (c : FinancialMetricsCalculator) (criteria : RankingCriteria)
    (d : CompanyFinancialData) : ScoredCompany :=
  let beta : ℚ := 1
  let eva_pct := (c.calculate_eva d beta).2
  let efv_pct := (c.calculate_efv d beta).2
  let upside := c.upsideGuarded d beta
  let profitability_score :=
    if 0 < d.revenue then d.net_income / d.revenue * 100 else 0
  let liquidity_score :=
    if 0 < d.current_liabilities then d.current_assets / d.current_liabilities * 100 else 0
  let scaled_eva := match eva_pct with
    | some v => minMaxFitTransformSingle v
    | none => 0
  let scaled_efv := match efv_pct with
    | some v => minMaxFitTransformSingle v
    | none => 0
  let scaled_upside := match upside with
    | some v => minMaxFitTransformSingle v
    | none => 0
  let scaled_profitability := minMaxFitTransformSingle profitability_score
  let scaled_liquidity := minMaxFitTransformSingle liquidity_score
  let final_score := scaled_eva * criteria.eva_weight +
    scaled_efv * criteria.efv_weight +
    scaled_upside * criteria.upside_weight +
    scaled_profitability * criteria.profitability_weight +
    scaled_liquidity * criteria.liquidity_weight
  { ticker := d.ticker
    company_name := d.company_name
    eva_pct := eva_pct
    efv_pct := efv_pct
    upside_pct := upside
    profitability_score := profitability_score
    liquidity_score := liquidity_score
    final_score := final_score }

/-- AdvancedRanking.custom_rank_companies: normalize the criteria, build one
entry per company in dict order, then Python list.sort by final_score with
reverse=True (a stable descending sort). -/
def custom_rank_companies (c : FinancialMetricsCalculator)
    (companies : List CompanyFinancialData) (criteria : RankingCriteria) :
    List ScoredCompany :=
  let ncriteria := criteria.normalize_weights
  let processed_data := companies.map (customRankEntry c ncriteria)
  List.insertionSort (fun a b => b.final_score ≤ a.final_score) processed_data

/-- The label values a ticker can receive from KMeans(n_clusters=3). -/
abbrev ClusterLabel := Fin 3

/-- Tickers of the rows whose k-means label (by row position, starting at
the given index) equals the given cluster id; this is the tolist() of the
ticker column filtered by cluster in identify_opportunities. -/
def membersFrom (label : ℕ → ClusterLabel) (cl : ClusterLabel) :
    ℕ → List String → List String
  | _, [] => []
  | i, t :: ts =>
      if label i = cl then t :: membersFrom label cl (i + 1) ts
      else membersFrom label cl (i + 1) ts

/-- sorted(all_metrics_df[cluster].unique()): the cluster ids that actually
occur among the first n rows, in increasing order. -/
def usedLabels (n : ℕ) (label : ℕ → ClusterLabel) : List ClusterLabel :=
  (List.finRange 3).filter (fun cl => (List.range n).any (fun i => decide (label i = cl)))

/-- The clusters field built by AdvancedRanking.identify_opportunities.
The k-means pipeline itself (StandardScaler + KMeans over floats with the
fixed random_state=42) is abstracted as the labelling function: the code
only uses the label array to group tickers.  Library behaviour that the
control flow depends on is modelled: an empty DataFrame returns the empty
dict before clustering, and sklearn KMeans.fit raises ValueError whenever
n_samples < n_clusters = 3 (n_clusters is hardcoded), which the except
branch turns into the single explicit error bucket. -/
def identifyOpportunitiesClusters (companies : List CompanyFinancialData)
    (label : ℕ → ClusterLabel) : List (String × List String) :=
  let tickers := companies.map (fun d => d.ticker)
  if tickers.isEmpty then []
  else if tickers.length < 3 then
    [("Erro no Clustering", ["Não foi possível agrupar as empresas."])]
  else
    (usedLabels tickers.length label).map
      (fun cl => ("Cluster " ++ toString (cl.val + 1), membersFrom label cl 0 tickers))

end AdvancedRanking

namespace PortfolioOptimizer

open FinancialMetricsCalculator

/-- The internal allocation score of PortfolioOptimizer.suggest_portfolio_allocation
with the hardcoded beta = 1.0: score starts at 0 and adds eva_pct, then
efv_pct * 1.5, then upside, each only when not NaN. -/
def portfolioScore (c : FinancialMetricsCalculator) (d : CompanyFinancialData) : ℚ :=
  let beta : ℚ := 1
  let eva_pct := (c.calculate_eva d beta).2
  let efv_pct := (c.calculate_efv d beta).2
  let upside := c.upsideGuarded d beta
  (match eva_pct with | some v => v | none => 0)
  + (match efv_pct with | some v => v * (3/2) | none => 0)
  + (match upside with | some v => v | none => 0)

/-- PortfolioOptimizer.suggest_portfolio_allocation restricted to the
moderate/default profile branch (the conservative and aggressive branches
are not needed by any claim).  The scores are total rationals, so the
replace(inf, nan).fillna(0) step is the identity and is elided.  The
sort_values(by=score, ascending=False) is a stable descending sort
(pandas keeps tied rows in dict order); the moderate branch then assigns
score / total_score to every row, rescales by the current sum when that
sum is positive, and rounds every weight to 4 decimal places.  When the
total score is exactly 0 the function returns weight 0.0 for every
company. -/
def suggest_portfolio_allocation_moderate (c : FinancialMetricsCalculator)
    (companies : List CompanyFinancialData) : List (String × ℚ) :=
  let processed_data := companies.map (fun d => (d.ticker, portfolioScore c d))
  let df := List.insertionSort (fun a b : String × ℚ => b.2 ≤ a.2) processed_data
  let total_score := (df.map (fun p => p.2)).sum
  if total_score = 0 then companies.map (fun d => (d.ticker, 0))
  else
    let portfolio_weights := df.map (fun p => (p.1, p.2 / total_score))
    let current_sum := (portfolio_weights.map (fun p => p.2)).sum
    let adjusted :=
      if 0 < current_sum then portfolio_weights.map (fun p => (p.1, p.2 / current_sum))
      else portfolio_weights
    adjusted.map (fun p => (p.1, round4 p.2))

end PortfolioOptimizer

open FinancialMetricsCalculator

/-- The default calculator: FinancialMetricsCalculator(selic_rate=None),
giving risk_free_rate = 0.10. -/
def calcD : FinancialMetricsCalculator := mkCalculator none

/-- A record with every numeric field 0 and no property_plant_equipment,
used as the base for concrete test records. -/
def zeroRecord (t : String) : CompanyFinancialData :=
  { ticker := t
    company_name := t
    market_cap := 0
    stock_price := 0
    shares_outstanding := 0
    revenue := 0
    ebit := 0
    net_income := 0
    depreciation_amortization := 0
    capex := 0
    total_assets := 0
    total_debt := 0
    equity := 0
    current_assets := 0
    current_liabilities := 0
    cash := 0
    accounts_receivable := 0
    inventory := 0
    accounts_payable := 0 }

/-- The PETR4.SA sample record from backend/src/sample_data.py. -/
def petr4 : CompanyFinancialData :=
  { ticker := "PETR4.SA"
    company_name := "Petróleo Brasileiro S.A. - Petrobras"
    market_cap := 502000000000
    stock_price := 77/2
    shares_outstanding := 13040000000
    revenue := 450000000000
    ebit := 200000000000
    net_income := 100000000000
    depreciation_amortization := 80000000000
    capex := 60000000000
    total_assets := 1300000000000
    total_debt := 400000000000
    equity := 500000000000
    current_assets := 300000000000
    current_liabilities := 180000000000
    cash := 70000000000
    accounts_receivable := 90000000000
    inventory := 50000000000
    accounts_payable := 80000000000
    property_plant_equipment := some 800000000000
    sector := some "Energia" }

/-- A company engineered so that its WACC is exactly 0 (equity = -495,
debt = 1000 make the weighted costs cancel at the default rates): EVA is
then defined (eva_pct = 66) while riqueza_atual, EFV and upside are all
NaN, so its allocation score is exactly its eva_pct. -/
def posCompany : CompanyFinancialData :=
  { zeroRecord "AAA" with
    equity := -495
    total_debt := 1000
    ebit := 100
    market_cap := 100
    property_plant_equipment := some 100 }

/-- Like posCompany but with negative ebit, giving eva_pct = -33 and
therefore a strictly negative allocation score. -/
def negCompany : CompanyFinancialData :=
  { posCompany with ticker := "BBB", company_name := "BBB", ebit := -50 }

/-- A record whose EFV is undefined (capital employed is 0) while its
market cap is strictly positive. -/
def noEfvCompany : CompanyFinancialData :=
  { zeroRecord "CCC" with market_cap := 10 }

/-- C7: for every record with equity + total_debt <= 0 and every beta (and
any calculator constants), _calculate_wacc returns the NaN sentinel rather
than raising or returning a finite number. -/
theorem claim_C7_wacc_undefined (c : FinancialMetricsCalculator)
    (d : CompanyFinancialData) (beta : ℚ)
    (h : d.equity + d.total_debt ≤ 0) :
    c._calculate_wacc d beta = none := by
  unfold FinancialMetricsCalculator._calculate_wacc
  simp [h]

theorem claim_C7_witness :
    (zeroRecord "ZZZ").equity + (zeroRecord "ZZZ").total_debt ≤ 0 ∧
      calcD._calculate_wacc (zeroRecord "ZZZ") 1 = none :=
  ⟨by norm_num [zeroRecord],
   claim_C7_wacc_undefined calcD (zeroRecord "ZZZ") 1 (by norm_num [zeroRecord])⟩

/-- C8: whenever capital employed and total capital are both positive (so
roce and wacc are defined), calculate_eva returns exactly
(capital_employed * (roce - wacc), (roce - wacc) * 100) over those same
roce and wacc values: an exact algebraic identity. -/
theorem claim_C8_eva_identity (c : FinancialMetricsCalculator)
    (d : CompanyFinancialData) (beta : ℚ)
    (hce : 0 < c._calculate_capital_employed d)
    (hcap : 0 < d.equity + d.total_debt) :
    ∃ roce wacc,
      c._calculate_roce d (c._calculate_capital_employed d) = some roce ∧
      c._calculate_wacc d beta = some wacc ∧
      c.calculate_eva d beta =
        (some (c._calculate_capital_employed d * (roce - wacc)),
         some ((roce - wacc) * 100)) := by
  have hw : c._calculate_wacc d beta =
      some (c._calculate_cost_of_equity_ke beta * (d.equity / (d.equity + d.total_debt))
        + c._calculate_cost_of_debt_kd d * (1 - c.tax_rate)
          * (d.total_debt / (d.equity + d.total_debt))) := by
    unfold FinancialMetricsCalculator._calculate_wacc
    simp [not_le_of_gt hcap]
  have hr : c._calculate_roce d (c._calculate_capital_employed d) =
      some (c._calculate_nopat d.ebit / c._calculate_capital_employed d) := by
    unfold FinancialMetricsCalculator._calculate_roce
    simp [ne_of_gt hce]
  refine ⟨_, _, hr, hw, ?_⟩
  unfold FinancialMetricsCalculator.calculate_eva
  simp only [hw, hr, if_neg (not_le_of_gt hce)]

theorem claim_C8_witness :
    0 < calcD._calculate_capital_employed petr4 ∧
    0 < petr4.equity + petr4.total_debt ∧
    ∃ roce wacc,
      calcD._calculate_roce petr4 (calcD._calculate_capital_employed petr4) = some roce ∧
      calcD._calculate_wacc petr4 1 = some wacc ∧
      calcD.calculate_eva petr4 1 =
        (some (calcD._calculate_capital_employed petr4 * (roce - wacc)),
         some ((roce - wacc) * 100)) :=
  ⟨by norm_num [calcD, mkCalculator, FinancialMetricsCalculator._calculate_capital_employed,
      FinancialMetricsCalculator._calculate_ncg, petr4],
   by norm_num [petr4],
   claim_C8_eva_identity calcD petr4 1
     (by norm_num [calcD, mkCalculator, FinancialMetricsCalculator._calculate_capital_employed,
        FinancialMetricsCalculator._calculate_ncg, petr4])
     (by norm_num [petr4])⟩

/-- C9: on the PETR4 sample record with beta = 1 and risk_free_rate = 0.10,
the WACC is the finite value 698/5625 = 0.12408...; it lies strictly
between 0.05 and 0.20, and eva_pct is finite (defined). -/
theorem claim_C9_petr4_scenario :
    calcD._calculate_wacc petr4 1 = some (698/5625) ∧
    (1/20 : ℚ) < 698/5625 ∧ ((698 : ℚ)/5625) < 1/5 ∧
    ∃ e, (calcD.calculate_eva petr4 1).2 = some e := by
  refine ⟨?_, by norm_num, by norm_num, ?_⟩
  · norm_num [calcD, mkCalculator, petr4, FinancialMetricsCalculator._calculate_wacc,
      FinancialMetricsCalculator._calculate_cost_of_equity_ke,
      FinancialMetricsCalculator._calculate_cost_of_debt_kd]
  · refine ⟨28444/9675, ?_⟩
    norm_num [calcD, mkCalculator, petr4, FinancialMetricsCalculator.calculate_eva,
      FinancialMetricsCalculator._calculate_capital_employed,
      FinancialMetricsCalculator._calculate_ncg,
      FinancialMetricsCalculator._calculate_wacc,
      FinancialMetricsCalculator._calculate_roce,
      FinancialMetricsCalculator._calculate_nopat,
      FinancialMetricsCalculator._calculate_cost_of_equity_ke,
      FinancialMetricsCalculator._calculate_cost_of_debt_kd]

/-- The two components of calculate_efv are NaN together: if efv_abs is the
NaN sentinel then so is efv_pct. -/
theorem efv_pct_none_of_efv_abs_none (c : FinancialMetricsCalculator)
    (d : CompanyFinancialData) (beta : ℚ)
    (h : (c.calculate_efv d beta).1 = none) :
    (c.calculate_efv d beta).2 = none := by
  unfold FinancialMetricsCalculator.calculate_efv at h ⊢
  cases hra : c.calculate_riqueza_atual d beta with
  | none => simp [hra]
  | some ra =>
      by_cases hce : c._calculate_capital_employed d ≤ 0
      · simp [hce]
      · simp [hra, hce] at h

/-- C10: whenever efv_abs is undefined, every consumer computes upside as
undefined too, even when market_cap > 0: the guarded call-site expression is
none, the metrics row and the custom-ranking entry carry an undefined
upside, and the portfolio allocation score receives contributions only from
eva_pct (efv_pct being undefined along with efv_abs). -/
theorem claim_C10_upside_requires_efv (c : FinancialMetricsCalculator)
    (d : CompanyFinancialData) (cr : RankingCriteria)
    (hefv : (c.calculate_efv d 1).1 = none) (hmc : 0 < d.market_cap) :
    c.upsideGuarded d 1 = none ∧
    (CompanyRanking._calculate_all_metrics c d).upside_percentual = none ∧
    (AdvancedRanking.customRankEntry c cr d).upside_pct = none ∧
    PortfolioOptimizer.portfolioScore c d = ((c.calculate_eva d 1).2).getD 0 := by
  have hup : c.upsideGuarded d 1 = none := by
    unfold FinancialMetricsCalculator.upsideGuarded
    rw [hefv]
  have hpct : (c.calculate_efv d 1).2 = none :=
    efv_pct_none_of_efv_abs_none c d 1 hefv
  refine ⟨hup, ?_, ?_, ?_⟩
  · unfold CompanyRanking._calculate_all_metrics
    simpa using hup
  · unfold AdvancedRanking.customRankEntry
    simpa using hup
  · unfold PortfolioOptimizer.portfolioScore
    simp only [hup, hpct]
    cases h : (c.calculate_eva d 1).2 <;> simp [h]

theorem claim_C10_witness :
    (calcD.calculate_efv noEfvCompany 1).1 = none ∧
    0 < noEfvCompany.market_cap ∧
    (calcD.upsideGuarded noEfvCompany 1 = none ∧
     (CompanyRanking._calculate_all_metrics calcD noEfvCompany).upside_percentual = none ∧
     (AdvancedRanking.customRankEntry calcD {} noEfvCompany).upside_pct = none ∧
     PortfolioOptimizer.portfolioScore calcD noEfvCompany =
       ((calcD.calculate_eva noEfvCompany 1).2).getD 0) := by
  have hefv : (calcD.calculate_efv noEfvCompany 1).1 = none := by
    norm_num [calcD, mkCalculator, noEfvCompany, zeroRecord,
      FinancialMetricsCalculator.calculate_efv,
      FinancialMetricsCalculator.calculate_riqueza_atual,
      FinancialMetricsCalculator.calculate_eva,
      FinancialMetricsCalculator._calculate_capital_employed,
      FinancialMetricsCalculator._calculate_ncg]
  exact ⟨hefv, by norm_num [noEfvCompany, zeroRecord],
    claim_C10_upside_requires_efv calcD noEfvCompany {} hefv
      (by norm_num [noEfvCompany, zeroRecord])⟩

theorem list_sum_pos_of_nonneg_of_mem_pos {l : List ℚ}
    (h0 : ∀ x ∈ l, 0 ≤ x) {x : ℚ} (hx : x ∈ l) (hxpos : 0 < x) : 0 < l.sum := by
  induction l with
  | nil => simp at hx
  | cons a t ih =>
      rcases List.mem_cons.mp hx with rfl | hmem
      · have ht : 0 ≤ t.sum :=
          List.sum_nonneg (fun y hy => h0 y (List.mem_cons_of_mem _ hy))
        simp only [List.sum_cons]
        linarith
      · have ha := h0 a (List.mem_cons_self a t)
        have ht := ih (fun y hy => h0 y (List.mem_cons_of_mem _ hy)) hmem
        simp only [List.sum_cons]
        linarith

theorem sum_map_round4_close (l : List ℚ) :
    |(l.map round4).sum - l.sum| ≤ l.length * (1/20000) := by
  induction l with
  | nil => simp
  | cons a t ih =>
      simp only [List.map_cons, List.sum_cons, List.length_cons]
      have h1 := abs_round4_sub a
      have h2 : |round4 a + ((t.map round4).sum) - (a + t.sum)|
          ≤ |round4 a - a| + |(t.map round4).sum - t.sum| := by
        have := abs_add (round4 a - a) ((t.map round4).sum - t.sum)
        calc |round4 a + (t.map round4).sum - (a + t.sum)|
            = |(round4 a - a) + ((t.map round4).sum - t.sum)| := by ring_nf
          _ ≤ _ := this
      push_cast
      linarith

theorem portfolioScore_posCompany :
    PortfolioOptimizer.portfolioScore calcD posCompany = 66 := by
  norm_num [PortfolioOptimizer.portfolioScore, calcD, mkCalculator, posCompany, zeroRecord,
    FinancialMetricsCalculator.calculate_eva, FinancialMetricsCalculator.calculate_efv,
    FinancialMetricsCalculator.calculate_riqueza_atual,
    FinancialMetricsCalculator.calculate_riqueza_futura,
    FinancialMetricsCalculator.upsideGuarded, FinancialMetricsCalculator.calculate_upside,
    FinancialMetricsCalculator._calculate_wacc, FinancialMetricsCalculator._calculate_roce,
    FinancialMetricsCalculator._calculate_nopat,
    FinancialMetricsCalculator._calculate_capital_employed,
    FinancialMetricsCalculator._calculate_ncg,
    FinancialMetricsCalculator._calculate_cost_of_equity_ke,
    FinancialMetricsCalculator._calculate_cost_of_debt_kd]

theorem portfolioScore_negCompany :
    PortfolioOptimizer.portfolioScore calcD negCompany = -33 := by
  norm_num [PortfolioOptimizer.portfolioScore, calcD, mkCalculator, negCompany, posCompany,
    zeroRecord,
    FinancialMetricsCalculator.calculate_eva, FinancialMetricsCalculator.calculate_efv,
    FinancialMetricsCalculator.calculate_riqueza_atual,
    FinancialMetricsCalculator.calculate_riqueza_futura,
    FinancialMetricsCalculator.upsideGuarded, FinancialMetricsCalculator.calculate_upside,
    FinancialMetricsCalculator._calculate_wacc, FinancialMetricsCalculator._calculate_roce,
    FinancialMetricsCalculator._calculate_nopat,
    FinancialMetricsCalculator._calculate_capital_employed,
    FinancialMetricsCalculator._calculate_ncg,
    FinancialMetricsCalculator._calculate_cost_of_equity_ke,
    FinancialMetricsCalculator._calculate_cost_of_debt_kd]

theorem portfolioScore_zeroRecord (t : String) :
    PortfolioOptimizer.portfolioScore calcD (zeroRecord t) = 0 := by
  norm_num [PortfolioOptimizer.portfolioScore, calcD, mkCalculator, zeroRecord,
    FinancialMetricsCalculator.calculate_eva, FinancialMetricsCalculator.calculate_efv,
    FinancialMetricsCalculator.calculate_riqueza_atual,
    FinancialMetricsCalculator.calculate_riqueza_futura,
    FinancialMetricsCalculator.upsideGuarded, FinancialMetricsCalculator.calculate_upside,
    FinancialMetricsCalculator._calculate_wacc, FinancialMetricsCalculator._calculate_roce,
    FinancialMetricsCalculator._calculate_nopat,
    FinancialMetricsCalculator._calculate_capital_employed,
    FinancialMetricsCalculator._calculate_ncg,
    FinancialMetricsCalculator._calculate_cost_of_equity_ke,
    FinancialMetricsCalculator._calculate_cost_of_debt_kd]

/-- C1 (amended): with the moderate profile, when every allocation score is
nonnegative and at least one is strictly positive, every returned weight is
nonnegative, every company whose score is non-positive (hence zero here)
receives weight exactly 0, and the weights sum to 1 within
n * 5e-5 (each of the n weights is rounded to 4 decimals with no residual
correction, so the drift bound grows with n; the claim's flat 1e-4 only
holds for n <= 2). -/
theorem claim_C1_moderate_allocation (c : FinancialMetricsCalculator)
    (companies : List CompanyFinancialData)
    (hnn : ∀ d ∈ companies, 0 ≤ PortfolioOptimizer.portfolioScore c d)
    (hpos : ∃ d ∈ companies, 0 < PortfolioOptimizer.portfolioScore c d) :
    (∀ p ∈ PortfolioOptimizer.suggest_portfolio_allocation_moderate c companies, 0 ≤ p.2) ∧
    (∀ d ∈ companies, PortfolioOptimizer.portfolioScore c d ≤ 0 →
      (d.ticker, (0:ℚ)) ∈ PortfolioOptimizer.suggest_portfolio_allocation_moderate c companies) ∧
    |((PortfolioOptimizer.suggest_portfolio_allocation_moderate c companies).map
        (fun p => p.2)).sum - 1| ≤ (companies.length : ℚ) * (1/20000) := by
  classical
  set rows := companies.map (fun d => (d.ticker, PortfolioOptimizer.portfolioScore c d)) with hrows
  set df := List.insertionSort (fun a b : String × ℚ => b.2 ≤ a.2) rows with hdf
  set S := (df.map (fun p => p.2)).sum with hSdef
  have hperm : df.Perm rows := List.perm_insertionSort _ _
  have hpermsnd : (df.map (fun p => p.2)).Perm (rows.map (fun p => p.2)) :=
    hperm.map _
  have hrows_nonneg : ∀ x ∈ rows.map (fun p => p.2), 0 ≤ x := by
    intro x hx
    rw [hrows] at hx
    simp only [List.map_map, List.mem_map, Function.comp] at hx
    obtain ⟨d, hd, rfl⟩ := hx
    exact hnn d hd
  have hdf_nonneg : ∀ x ∈ df.map (fun p => p.2), 0 ≤ x := by
    intro x hx
    exact hrows_nonneg x (hpermsnd.mem_iff.mp hx)
  have hSpos : 0 < S := by
    obtain ⟨d, hd, hdpos⟩ := hpos
    have hmem : PortfolioOptimizer.portfolioScore c d ∈ rows.map (fun p => p.2) := by
      rw [hrows]
      simp only [List.map_map, List.mem_map, Function.comp]
      exact ⟨d, hd, rfl⟩
    have hmem2 : PortfolioOptimizer.portfolioScore c d ∈ df.map (fun p => p.2) :=
      hpermsnd.mem_iff.mpr hmem
    exact hSdef ▸ list_sum_pos_of_nonneg_of_mem_pos hdf_nonneg hmem2 hdpos
  have hSne : S ≠ 0 := ne_of_gt hSpos
  have hcs : ((df.map (fun p => (p.1, p.2 / S))).map (fun p => p.2)).sum = 1 := by
    rw [List.map_map]
    have hfun : ((fun p : String × ℚ => p.2) ∘ (fun p : String × ℚ => (p.1, p.2 / S)))
        = fun p : String × ℚ => p.2 * S⁻¹ := by
      funext p
      simp [Function.comp, div_eq_mul_inv]
    rw [hfun, List.sum_map_mul_right, ← hSdef, mul_inv_cancel₀ hSne]
  have hres : PortfolioOptimizer.suggest_portfolio_allocation_moderate c companies
      = df.map (fun p => (p.1, round4 (p.2 / S))) := by
    simp only [PortfolioOptimizer.suggest_portfolio_allocation_moderate]
    rw [← hrows, ← hdf, ← hSdef, if_neg hSne, hcs, if_pos (by norm_num : (0:ℚ) < 1)]
    simp only [List.map_map, Function.comp, div_one]
    rfl
  refine ⟨?_, ?_, ?_⟩
  · intro p hp
    rw [hres] at hp
    obtain ⟨q, hq, rfl⟩ := List.mem_map.mp hp
    have hq2 : 0 ≤ q.2 := hdf_nonneg q.2 (List.mem_map_of_mem _ hq)
    exact round4_nonneg (div_nonneg hq2 hSpos.le)
  · intro d hd hle
    have h0 : PortfolioOptimizer.portfolioScore c d = 0 := le_antisymm hle (hnn d hd)
    rw [hres]
    have hmem : (d.ticker, PortfolioOptimizer.portfolioScore c d) ∈ rows := by
      rw [hrows]
      exact List.mem_map_of_mem _ hd
    have hmem2 : (d.ticker, PortfolioOptimizer.portfolioScore c d) ∈ df :=
      hperm.mem_iff.mpr hmem
    refine List.mem_map.mpr ⟨(d.ticker, PortfolioOptimizer.portfolioScore c d), hmem2, ?_⟩
    simp [h0, round4_zero]
  · rw [hres]
    have hmapmap : (df.map (fun p => (p.1, round4 (p.2 / S)))).map (fun p => p.2)
        = (df.map (fun p => p.2 / S)).map round4 := by
      simp [List.map_map, Function.comp]
    have hwsum : (df.map (fun p => p.2 / S)).sum = 1 := by
      have : (df.map (fun p => (p.1, p.2 / S))).map (fun p => p.2)
          = df.map (fun p => p.2 / S) := by
        simp [List.map_map, Function.comp]
      rw [← this, hcs]
    have hlen : (df.map (fun p => p.2 / S)).length = companies.length := by
      rw [List.length_map, hperm.length_eq, hrows, List.length_map]
    have hb := sum_map_round4_close (df.map (fun p => p.2 / S))
    rw [hwsum, hlen] at hb
    rw [hmapmap]
    exact hb

theorem claim_C1_witness :
    (∀ p ∈ PortfolioOptimizer.suggest_portfolio_allocation_moderate calcD
        [posCompany, zeroRecord "ZZZ"], 0 ≤ p.2) ∧
    (∀ d ∈ ([posCompany, zeroRecord "ZZZ"] : List CompanyFinancialData),
      PortfolioOptimizer.portfolioScore calcD d ≤ 0 →
      (d.ticker, (0:ℚ)) ∈ PortfolioOptimizer.suggest_portfolio_allocation_moderate calcD
        [posCompany, zeroRecord "ZZZ"]) ∧
    |((PortfolioOptimizer.suggest_portfolio_allocation_moderate calcD
        [posCompany, zeroRecord "ZZZ"]).map (fun p => p.2)).sum - 1|
      ≤ (([posCompany, zeroRecord "ZZZ"] : List CompanyFinancialData).length : ℚ) * (1/20000) :=
  claim_C1_moderate_allocation calcD [posCompany, zeroRecord "ZZZ"]
    (by
      intro d hd
      rcases List.mem_cons.mp hd with rfl | hd2
      · rw [portfolioScore_posCompany]; norm_num
      · rcases List.mem_cons.mp hd2 with rfl | h3
        · rw [portfolioScore_zeroRecord]
        · simp at h3)
    ⟨posCompany, by simp, by rw [portfolioScore_posCompany]; norm_num⟩

/-- C1 counterexample to the claim as stated: with one company of strictly
positive score (66) and one of strictly negative score (-33), the moderate
allocation assigns the negative-score company the weight -1 (negative, not
zero) and the positive one the weight 2. -/
theorem claim_C1_counterexample :
    0 < PortfolioOptimizer.portfolioScore calcD posCompany ∧
    PortfolioOptimizer.portfolioScore calcD negCompany < 0 ∧
    PortfolioOptimizer.suggest_portfolio_allocation_moderate calcD [posCompany, negCompany]
      = [("AAA", 2), ("BBB", -1)] := by
  have hrows : ([posCompany, negCompany] : List CompanyFinancialData).map
      (fun d => (d.ticker, PortfolioOptimizer.portfolioScore calcD d))
      = [("AAA", 66), ("BBB", -33)] := by
    simp only [List.map_cons, List.map_nil]
    rw [portfolioScore_posCompany, portfolioScore_negCompany]
    norm_num [posCompany, negCompany, zeroRecord]
  refine ⟨by rw [portfolioScore_posCompany]; norm_num,
    by rw [portfolioScore_negCompany]; norm_num, ?_⟩
  have h2 : round4 (2:ℚ) = 2 := by norm_num [round4, roundHalfEven]
  have hm1 : round4 (-1:ℚ) = -1 := by norm_num [round4, roundHalfEven]
  simp only [PortfolioOptimizer.suggest_portfolio_allocation_moderate]
  rw [hrows]
  norm_num [List.insertionSort, List.orderedInsert, h2, hm1]

/-- C2 (amended): when every allocation score is exactly 0 (so the total
score is 0), the moderate allocation returns weight 0.0 for every input
ticker — not a uniform 1/n split — and the returned weights sum to 0,
not 1. -/
theorem claim_C2_zero_total (c : FinancialMetricsCalculator)
    (companies : List CompanyFinancialData) (hne : companies ≠ [])
    (hz : ∀ d ∈ companies, PortfolioOptimizer.portfolioScore c d = 0) :
    PortfolioOptimizer.suggest_portfolio_allocation_moderate c companies
      = companies.map (fun d => (d.ticker, (0:ℚ))) ∧
    ((PortfolioOptimizer.suggest_portfolio_allocation_moderate c companies).map
      (fun p => p.2)).sum = 0 := by
  classical
  set rows := companies.map (fun d => (d.ticker, PortfolioOptimizer.portfolioScore c d)) with hrows
  set df := List.insertionSort (fun a b : String × ℚ => b.2 ≤ a.2) rows with hdf
  have hperm : df.Perm rows := List.perm_insertionSort _ _
  have hall : ∀ x ∈ df.map (fun p => p.2), x = 0 := by
    intro x hx
    have hx2 : x ∈ rows.map (fun p => p.2) := (hperm.map _).mem_iff.mp hx
    rw [hrows] at hx2
    simp only [List.map_map, List.mem_map, Function.comp] at hx2
    obtain ⟨d, hd, rfl⟩ := hx2
    exact hz d hd
  have hS : (df.map (fun p => p.2)).sum = 0 := List.sum_eq_zero hall
  have hres : PortfolioOptimizer.suggest_portfolio_allocation_moderate c companies
      = companies.map (fun d => (d.ticker, (0:ℚ))) := by
    simp only [PortfolioOptimizer.suggest_portfolio_allocation_moderate]
    rw [← hrows, ← hdf, hS]
    simp
  refine ⟨hres, ?_⟩
  rw [hres, List.map_map]
  apply List.sum_eq_zero
  intro x hx
  simp only [List.mem_map, Function.comp] at hx
  obtain ⟨d, hd, rfl⟩ := hx
  rfl

theorem claim_C2_witness :
    PortfolioOptimizer.suggest_portfolio_allocation_moderate calcD [zeroRecord "ZZZ"]
      = ([zeroRecord "ZZZ"] : List CompanyFinancialData).map (fun d => (d.ticker, (0:ℚ))) ∧
    ((PortfolioOptimizer.suggest_portfolio_allocation_moderate calcD
      [zeroRecord "ZZZ"]).map (fun p => p.2)).sum = 0 :=
  claim_C2_zero_total calcD [zeroRecord "ZZZ"] (by simp)
    (by
      intro d hd
      rcases List.mem_cons.mp hd with rfl | h
      · exact portfolioScore_zeroRecord "ZZZ"
      · simp at h)

/-- C2 counterexample to the claim as stated: a single company with score 0
(no strictly positive score in the batch) receives weight 0.0, not the
uniform 1/1 = 1, and the weights sum to 0 rather than to 1 within 1e-4. -/
theorem claim_C2_counterexample :
    (∀ d ∈ ([zeroRecord "ZZZ"] : List CompanyFinancialData),
      ¬ 0 < PortfolioOptimizer.portfolioScore calcD d) ∧
    PortfolioOptimizer.suggest_portfolio_allocation_moderate calcD [zeroRecord "ZZZ"]
      = [("ZZZ", (0:ℚ))] ∧
    ((PortfolioOptimizer.suggest_portfolio_allocation_moderate calcD
      [zeroRecord "ZZZ"]).map (fun p => p.2)).sum = 0 := by
  have hres := claim_C2_witness
  have hlist : ([zeroRecord "ZZZ"] : List CompanyFinancialData).map
      (fun d => (d.ticker, (0:ℚ))) = [("ZZZ", (0:ℚ))] := by
    norm_num [zeroRecord]
  refine ⟨?_, hlist ▸ hres.1, hres.2⟩
  intro d hd
  rcases List.mem_cons.mp hd with rfl | h
  · rw [portfolioScore_zeroRecord]; norm_num
  · simp at h

/-- Every custom-ranking entry has final score 0: each of the five metrics
is min-max scaled against a batch consisting only of its own value (the
scaler is fitted per company on a 1x1 array), so every scaled metric is 0
and the weights never matter. -/
theorem customRankEntry_final_score_zero (c : FinancialMetricsCalculator)
    (cr : RankingCriteria) (d : CompanyFinancialData) :
    (AdvancedRanking.customRankEntry c cr d).final_score = 0 := by
  unfold AdvancedRanking.customRankEntry
  cases heva : (c.calculate_eva d 1).2 <;>
    cases hefv : (c.calculate_efv d 1).2 <;>
      cases hup : c.upsideGuarded d 1 <;>
        simp [heva, hefv, hup, minMaxFitTransformSingle_eq_zero]

theorem customRankEntry_ticker (c : FinancialMetricsCalculator)
    (cr : RankingCriteria) (d : CompanyFinancialData) :
    (AdvancedRanking.customRankEntry c cr d).ticker = d.ticker := rfl

theorem customRankEntry_eva_pct (c : FinancialMetricsCalculator)
    (cr : RankingCriteria) (d : CompanyFinancialData) :
    (AdvancedRanking.customRankEntry c cr d).eva_pct = (c.calculate_eva d 1).2 := rfl

theorem ticker_posCompany : posCompany.ticker = "AAA" := rfl

theorem ticker_negCompany : negCompany.ticker = "BBB" := rfl

theorem eva_pct_posCompany : (calcD.calculate_eva posCompany 1).2 = some 66 := by
  norm_num [calcD, mkCalculator, posCompany, zeroRecord,
    FinancialMetricsCalculator.calculate_eva,
    FinancialMetricsCalculator._calculate_wacc, FinancialMetricsCalculator._calculate_roce,
    FinancialMetricsCalculator._calculate_nopat,
    FinancialMetricsCalculator._calculate_capital_employed,
    FinancialMetricsCalculator._calculate_ncg,
    FinancialMetricsCalculator._calculate_cost_of_equity_ke,
    FinancialMetricsCalculator._calculate_cost_of_debt_kd]

theorem eva_pct_negCompany : (calcD.calculate_eva negCompany 1).2 = some (-33) := by
  norm_num [calcD, mkCalculator, negCompany, posCompany, zeroRecord,
    FinancialMetricsCalculator.calculate_eva,
    FinancialMetricsCalculator._calculate_wacc, FinancialMetricsCalculator._calculate_roce,
    FinancialMetricsCalculator._calculate_nopat,
    FinancialMetricsCalculator._calculate_capital_employed,
    FinancialMetricsCalculator._calculate_ncg,
    FinancialMetricsCalculator._calculate_cost_of_equity_ke,
    FinancialMetricsCalculator._calculate_cost_of_debt_kd]

/-- The criteria of end-to-end scenario C: weight only on eva. -/
def crEva : RankingCriteria :=
  { eva_weight := 1
    efv_weight := 0
    upside_weight := 0
    profitability_weight := 0
    liquidity_weight := 0 }

/-- C3: custom_rank_companies does NOT min-max scale across the batch: the
scaler is refitted on each single value, so every scaled metric is 0,
every final score is 0 regardless of the criteria, and the output order is
just the (stable-sorted) input order.  Concretely, with eva_weight = 1 and
the lower-eva company listed first, the output keeps the lower-eva company
first — not an eva-descending ranking. -/
theorem claim_C3_scores_all_zero :
    (∀ (c : FinancialMetricsCalculator) (cr : RankingCriteria) (d : CompanyFinancialData),
      (AdvancedRanking.customRankEntry c cr d).final_score = 0) ∧
    (AdvancedRanking.custom_rank_companies calcD [negCompany, posCompany] crEva).map
      (fun s => (s.ticker, s.eva_pct, s.final_score))
      = [("BBB", some (-33), (0:ℚ)), ("AAA", some 66, (0:ℚ))] := by
  refine ⟨customRankEntry_final_score_zero, ?_⟩
  simp only [AdvancedRanking.custom_rank_companies, List.map_cons, List.map_nil]
  norm_num [List.insertionSort, List.orderedInsert,
    customRankEntry_final_score_zero, customRankEntry_ticker, customRankEntry_eva_pct,
    eva_pct_posCompany, eva_pct_negCompany, ticker_posCompany, ticker_negCompany]

/-- The report row produced for an all-zero record: capital employed is 0,
so eva_abs and efv_abs stay NaN (none) in the report, while the seven
cleaned columns are flattened to 0. -/
theorem reportRow_zeroRecord (t : String) :
    CompanyRanking.cleanRow (CompanyRanking._calculate_all_metrics calcD (zeroRecord t)) =
    { ticker := t
      company_name := t
      market_cap := 0
      stock_price := 0
      wacc_percentual := 0
      eva_abs := none
      eva_percentual := 0
      efv_abs := none
      efv_percentual := 0
      riqueza_atual := 0
      riqueza_futura := 0
      upside_percentual := 0
      combined_score := 0 } := by
  norm_num [CompanyRanking.cleanRow, CompanyRanking._calculate_all_metrics,
    calcD, mkCalculator, zeroRecord,
    FinancialMetricsCalculator.calculate_eva, FinancialMetricsCalculator.calculate_efv,
    FinancialMetricsCalculator.calculate_riqueza_atual,
    FinancialMetricsCalculator.calculate_riqueza_futura,
    FinancialMetricsCalculator.upsideGuarded, FinancialMetricsCalculator.calculate_upside,
    FinancialMetricsCalculator._calculate_wacc, FinancialMetricsCalculator._calculate_roce,
    FinancialMetricsCalculator._calculate_nopat,
    FinancialMetricsCalculator._calculate_capital_employed,
    FinancialMetricsCalculator._calculate_ncg,
    FinancialMetricsCalculator._calculate_cost_of_equity_ke,
    FinancialMetricsCalculator._calculate_cost_of_debt_kd]

/-- C6 (amended): generate_ranking_report cleans NaN/Inf to 0 only in the
seven listed columns (wacc_percentual, eva_percentual, efv_percentual,
riqueza_atual, riqueza_futura, upside_percentual, combined_score); the
eva_abs and efv_abs columns are NOT in the cleanup list and keep the raw,
possibly undefined, values of calculate_eva/calculate_efv. -/
theorem claim_C6_cleanup_columns :
    (∀ (c : FinancialMetricsCalculator) (companies : List CompanyFinancialData),
      CompanyRanking.generate_ranking_report c companies
        = companies.map (fun d =>
            CompanyRanking.cleanRow (CompanyRanking._calculate_all_metrics c d))) ∧
    (∀ (c : FinancialMetricsCalculator) (d : CompanyFinancialData),
      (CompanyRanking.cleanRow (CompanyRanking._calculate_all_metrics c d)).eva_abs
        = (c.calculate_eva d 1).1 ∧
      (CompanyRanking.cleanRow (CompanyRanking._calculate_all_metrics c d)).efv_abs
        = (c.calculate_efv d 1).1 ∧
      (CompanyRanking.cleanRow (CompanyRanking._calculate_all_metrics c d)).eva_percentual
        = ((c.calculate_eva d 1).2).getD 0 ∧
      (CompanyRanking.cleanRow (CompanyRanking._calculate_all_metrics c d)).efv_percentual
        = ((c.calculate_efv d 1).2).getD 0 ∧
      (CompanyRanking.cleanRow (CompanyRanking._calculate_all_metrics c d)).riqueza_atual
        = (c.calculate_riqueza_atual d 1).getD 0 ∧
      (CompanyRanking.cleanRow (CompanyRanking._calculate_all_metrics c d)).upside_percentual
        = (c.upsideGuarded d 1).getD 0) := by
  refine ⟨fun c companies => by simp [CompanyRanking.generate_ranking_report], ?_⟩
  intro c d
  refine ⟨rfl, rfl, rfl, rfl, rfl, rfl⟩

/-- C6 counterexample to the claim as stated: for an all-zero record the
report's eva_abs column still holds the undefined sentinel (none), even
though eva_percentual has been flattened to 0 — so not every numeric
column is NaN-free. -/
theorem claim_C6_counterexample :
    (CompanyRanking.generate_ranking_report calcD [zeroRecord "ZZZ"]).map
      (fun r => r.eva_abs) = [none] ∧
    (CompanyRanking.generate_ranking_report calcD [zeroRecord "ZZZ"]).map
      (fun r => r.eva_percentual) = [(0:ℚ)] := by
  simp [CompanyRanking.generate_ranking_report, reportRow_zeroRecord]

/-- C5 (amended): rank_by_metric sorts the report rows by the chosen metric
(non-increasing for the default ascending=False, non-decreasing for
ascending=True) and returns a permutation of the (ticker, value) pairs of
the input; rank_by_combined_score is the same sort on combined_score.  No
ticker tie-break exists anywhere: the stable sort keeps rows with equal
metric values in their input (dict insertion) order. -/
theorem claim_C5_sort_no_tiebreak :
    ∀ (df : List ReportRow) (metric : ReportRow → ℚ),
      List.Pairwise (fun a b : String × ℚ => b.2 ≤ a.2)
        (CompanyRanking.rank_by_metric df metric false) ∧
      (CompanyRanking.rank_by_metric df metric false).Perm
        (df.map (fun r => (r.ticker, metric r))) ∧
      List.Pairwise (fun a b : String × ℚ => a.2 ≤ b.2)
        (CompanyRanking.rank_by_metric df metric true) ∧
      (CompanyRanking.rank_by_metric df metric true).Perm
        (df.map (fun r => (r.ticker, metric r))) ∧
      CompanyRanking.rank_by_combined_score df
        = CompanyRanking.rank_by_metric df (fun r => r.combined_score) false := by
  intro df metric
  haveI htotge : IsTotal ReportRow (fun a b => metric b ≤ metric a) :=
    ⟨fun a b => le_total (metric b) (metric a)⟩
  haveI htransge : IsTrans ReportRow (fun a b => metric b ≤ metric a) :=
    ⟨fun a b c h1 h2 => le_trans h2 h1⟩
  haveI htot : IsTotal ReportRow (fun a b => metric a ≤ metric b) :=
    ⟨fun a b => le_total (metric a) (metric b)⟩
  haveI htrans : IsTrans ReportRow (fun a b => metric a ≤ metric b) :=
    ⟨fun a b c h1 h2 => le_trans h1 h2⟩
  have hsge : List.Sorted (fun a b => metric b ≤ metric a)
      (List.insertionSort (fun a b => metric b ≤ metric a) df) :=
    List.sorted_insertionSort _ df
  have hpermge : (List.insertionSort (fun a b => metric b ≤ metric a) df).Perm df :=
    List.perm_insertionSort _ df
  have hsle : List.Sorted (fun a b => metric a ≤ metric b)
      (List.insertionSort (fun a b => metric a ≤ metric b) df) :=
    List.sorted_insertionSort _ df
  have hpermle : (List.insertionSort (fun a b => metric a ≤ metric b) df).Perm df :=
    List.perm_insertionSort _ df
  refine ⟨?_, ?_, ?_, ?_, rfl⟩
  · simp only [CompanyRanking.rank_by_metric, if_neg (by simp : ¬ (false = true))]
    exact List.pairwise_map.mpr (hsge.imp (fun h => h))
  · simp only [CompanyRanking.rank_by_metric, if_neg (by simp : ¬ (false = true))]
    exact hpermge.map _
  · simp only [CompanyRanking.rank_by_metric, if_pos rfl]
    exact List.pairwise_map.mpr (hsle.imp (fun h => h))
  · simp only [CompanyRanking.rank_by_metric, if_pos rfl]
    exact hpermle.map _

/-- C5 counterexample to the claim as stated: two rows with equal
combined_score (both 0) inserted in descending ticker order (BBB first,
then AAA) come out of rank_by_combined_score still in that order — the
stable sort preserves the dict insertion order at ties, so ties are NOT
broken by ticker ascending. -/
theorem claim_C5_counterexample :
    CompanyRanking.rank_by_combined_score
      (CompanyRanking.generate_ranking_report calcD [zeroRecord "BBB", zeroRecord "AAA"])
      = [("BBB", 0), ("AAA", 0)] ∧ ("AAA" : String) ≠ "BBB" := by
  constructor
  · simp only [CompanyRanking.generate_ranking_report, List.map_cons, List.map_nil,
      reportRow_zeroRecord]
    norm_num [CompanyRanking.rank_by_combined_score, List.insertionSort, List.orderedInsert]
  · decide

/-- Membership in a cluster group: t is collected for cluster cl starting
at offset i exactly when t sits at some position k of the ticker list and
the label of row i + k is cl. -/
theorem mem_membersFrom_iff (label : ℕ → AdvancedRanking.ClusterLabel)
    (cl : AdvancedRanking.ClusterLabel) (t : String) :
    ∀ (ts : List String) (i : ℕ),
      t ∈ AdvancedRanking.membersFrom label cl i ts ↔
        ∃ k, ∃ hk : k < ts.length, ts.get ⟨k, hk⟩ = t ∧ label (i + k) = cl := by
  intro ts
  induction ts with
  | nil =>
      intro i
      simp [AdvancedRanking.membersFrom]
  | cons a as ih =>
      intro i
      rw [AdvancedRanking.membersFrom]
      by_cases h : label i = cl
      · rw [if_pos h]
        constructor
        · intro hmem
          rcases List.mem_cons.mp hmem with rfl | hmem2
          · exact ⟨0, Nat.succ_pos _, rfl, by simpa using h⟩
          · obtain ⟨k, hk, hget, hlab⟩ := (ih (i + 1)).mp hmem2
            refine ⟨k + 1, Nat.succ_lt_succ hk, hget, ?_⟩
            have harith : i + (k + 1) = i + 1 + k := by omega
            rwa [harith]
        · rintro ⟨k, hk, hget, hlab⟩
          cases k with
          | zero =>
              simp only [List.get] at hget
              exact hget ▸ List.mem_cons_self _ _
          | succ k2 =>
              refine List.mem_cons_of_mem _ ((ih (i + 1)).mpr ⟨k2, Nat.lt_of_succ_lt_succ hk, hget, ?_⟩)
              have harith : i + 1 + k2 = i + (k2 + 1) := by omega
              rwa [harith]
      · rw [if_neg h]
        constructor
        · intro hmem
          obtain ⟨k, hk, hget, hlab⟩ := (ih (i + 1)).mp hmem
          refine ⟨k + 1, Nat.succ_lt_succ hk, hget, ?_⟩
          have harith : i + (k + 1) = i + 1 + k := by omega
          rwa [harith]
        · rintro ⟨k, hk, hget, hlab⟩
          cases k with
          | zero =>
              exfalso
              apply h
              simpa using hlab
          | succ k2 =>
              refine (ih (i + 1)).mpr ⟨k2, Nat.lt_of_succ_lt_succ hk, hget, ?_⟩
              have harith : i + 1 + k2 = i + (k2 + 1) := by omega
              rwa [harith]

theorem mem_usedLabels_iff (n : ℕ) (label : ℕ → AdvancedRanking.ClusterLabel)
    (cl : AdvancedRanking.ClusterLabel) :
    cl ∈ AdvancedRanking.usedLabels n label ↔ ∃ i, i < n ∧ label i = cl := by
  unfold AdvancedRanking.usedLabels
  rw [List.mem_filter]
  simp [List.any_eq_true, List.mem_finRange, List.mem_range]

/-- C4 (amended): when the batch has at least 3 companies (so the
KMeans(n_clusters=3) call does not raise), the clusters field groups every
input ticker into exactly one group, groups are pairwise disjoint and drawn
from the input tickers, and there are between 1 and 3 groups (one per
k-means label actually used — not always exactly 3).  For fewer than 3
companies the k-means call fails and the clusters field is the single
explicit error bucket instead of a partition. -/
theorem claim_C4_clusters_partition (companies : List CompanyFinancialData)
    (label : ℕ → AdvancedRanking.ClusterLabel)
    (hnodup : (companies.map (fun d => d.ticker)).Nodup)
    (hn : 3 ≤ companies.length) :
    (∀ t ∈ companies.map (fun d => d.ticker),
      ∃ g ∈ AdvancedRanking.identifyOpportunitiesClusters companies label, t ∈ g.2) ∧
    (∀ g ∈ AdvancedRanking.identifyOpportunitiesClusters companies label,
      ∀ t ∈ g.2, t ∈ companies.map (fun d => d.ticker)) ∧
    List.Pairwise (fun g h => ∀ t ∈ g.2, t ∉ h.2)
      (AdvancedRanking.identifyOpportunitiesClusters companies label) ∧
    1 ≤ (AdvancedRanking.identifyOpportunitiesClusters companies label).length ∧
    (AdvancedRanking.identifyOpportunitiesClusters companies label).length ≤ 3 := by
  classical
  set tickers := companies.map (fun d => d.ticker) with htickers
  have hlen : tickers.length = companies.length := by rw [htickers, List.length_map]
  have hlen3 : 3 ≤ tickers.length := by rw [hlen]; exact hn
  have hempty : tickers.isEmpty = false := by
    cases tk : tickers with
    | nil => rw [tk] at hlen3; simp at hlen3
    | cons a as => rfl
  have hres : AdvancedRanking.identifyOpportunitiesClusters companies label
      = (AdvancedRanking.usedLabels tickers.length label).map
          (fun cl => ("Cluster " ++ toString (cl.val + 1),
            AdvancedRanking.membersFrom label cl 0 tickers)) := by
    simp only [AdvancedRanking.identifyOpportunitiesClusters]
    rw [← htickers, hempty]
    simp only [Bool.false_eq_true, if_false]
    rw [if_neg (not_lt.mpr hlen3)]
  simp only [hres]
  refine ⟨?_, ?_, ?_, ?_, ?_⟩
  · intro t ht
    obtain ⟨⟨k, hk⟩, hget⟩ := List.mem_iff_get.mp ht
    refine ⟨("Cluster " ++ toString ((label k).val + 1),
      AdvancedRanking.membersFrom label (label k) 0 tickers), ?_, ?_⟩
    · exact List.mem_map_of_mem _ ((mem_usedLabels_iff _ _ _).mpr ⟨k, hk, rfl⟩)
    · exact (mem_membersFrom_iff label (label k) t tickers 0).mpr
        ⟨k, hk, hget, by simp⟩
  · intro g hg t htg
    obtain ⟨cl, hcl, rfl⟩ := List.mem_map.mp hg
    obtain ⟨k, hk, hget, hlab⟩ := (mem_membersFrom_iff label cl t tickers 0).mp htg
    exact hget ▸ List.get_mem tickers k hk
  · apply List.pairwise_map.mpr
    have hnd : (AdvancedRanking.usedLabels tickers.length label).Nodup :=
      List.Nodup.filter _ (List.nodup_finRange 3)
    refine hnd.imp ?_
    intro cl cl2 hne t htg htg2
    obtain ⟨k, hk, hget, hlab⟩ := (mem_membersFrom_iff label cl t tickers 0).mp htg
    obtain ⟨k2, hk2, hget2, hlab2⟩ := (mem_membersFrom_iff label cl2 t tickers 0).mp htg2
    have heq : (⟨k, hk⟩ : Fin tickers.length) = ⟨k2, hk2⟩ :=
      hnodup.get_inj_iff.mp (by rw [hget, hget2])
    have hkk : k = k2 := by
      have := Fin.mk.inj heq
      exact this
    apply hne
    rw [← hlab, ← hlab2, hkk]
  · rw [List.length_map]
    have hmem : label 0 ∈ AdvancedRanking.usedLabels tickers.length label :=
      (mem_usedLabels_iff _ _ _).mpr ⟨0, by omega, rfl⟩
    exact List.length_pos.mpr (List.ne_nil_of_mem hmem)
  · rw [List.length_map]
    simp only [AdvancedRanking.usedLabels]
    exact (List.length_filter_le _ _).trans (by simp)

/-- A concrete deterministic labelling for the C4 witness. -/
def labelMod3 (i : ℕ) : AdvancedRanking.ClusterLabel :=
  ⟨i % 3, Nat.mod_lt i (by norm_num)⟩

/-- The three-company batch used by the C4 witness. -/
def threeCompanies : List CompanyFinancialData :=
  [zeroRecord "AAA", zeroRecord "BBB", zeroRecord "CCC"]

/-- C4 counterexample to the claim as stated: for a single-company input the
clusters field is the explicit error bucket (KMeans with the hardcoded
n_clusters = 3 raises for 1 sample), not a partition of the input ticker
into min(3, 1) = 1 group: the lone ticker appears in no group. -/
theorem claim_C4_counterexample :
    AdvancedRanking.identifyOpportunitiesClusters [zeroRecord "AAA"] labelMod3
      = [("Erro no Clustering", ["Não foi possível agrupar as empresas."])] ∧
    ∀ g ∈ AdvancedRanking.identifyOpportunitiesClusters [zeroRecord "AAA"] labelMod3,
      "AAA" ∉ g.2 := by
  have h1 : AdvancedRanking.identifyOpportunitiesClusters [zeroRecord "AAA"] labelMod3
      = [("Erro no Clustering", ["Não foi possível agrupar as empresas."])] := by
    simp [AdvancedRanking.identifyOpportunitiesClusters]
  refine ⟨h1, ?_⟩
  intro g hg
  rw [h1] at hg
  rcases List.mem_singleton.mp hg with rfl
  decide

theorem claim_C4_witness :
    (threeCompanies.map (fun d => d.ticker)).Nodup ∧ 3 ≤ threeCompanies.length ∧
    ((∀ t ∈ threeCompanies.map (fun d => d.ticker),
      ∃ g ∈ AdvancedRanking.identifyOpportunitiesClusters threeCompanies labelMod3, t ∈ g.2) ∧
    (∀ g ∈ AdvancedRanking.identifyOpportunitiesClusters threeCompanies labelMod3,
      ∀ t ∈ g.2, t ∈ threeCompanies.map (fun d => d.ticker)) ∧
    List.Pairwise (fun g h => ∀ t ∈ g.2, t ∉ h.2)
      (AdvancedRanking.identifyOpportunitiesClusters threeCompanies labelMod3) ∧
    1 ≤ (AdvancedRanking.identifyOpportunitiesClusters threeCompanies labelMod3).length ∧
    (AdvancedRanking.identifyOpportunitiesClusters threeCompanies labelMod3).length ≤ 3) :=
  ⟨by decide, by decide,
   claim_C4_clusters_partition threeCompanies labelMod3 (by decide) (by decide)⟩
